import Mathlib

/-!
Shallow embedding of the Unity Catalog LiteLLM toolkit adapter
(`ai/integrations/litellm/src/unitycatalog/ai/litellm/toolkit.py`).

Pure Python functions become Lean functions; fallible calls return `Except`.
Collaborators that live outside the given sources (the core client utilities,
the schema-generation utility, the name sanitizer, the OpenAI tool builder)
are modelled from the specification; each such definition's doc comment
starts with `Modelled from the spec:` and names the missing piece.
-/

namespace UCLiteLLM

/-- Python values as they appear in keyword arguments: the JSON-native shapes
(`str`, `int`, `bool`, `None`, lists, dicts) plus `obj`, an arbitrary
non-JSON-native object carried with its `str(...)` rendering. -/
inductive PyVal where
  | str (s : String)
  | int (n : Int)
  | bool (b : Bool)
  | pynone
  | list (xs : List PyVal)
  | dict (entries : List (String × PyVal))
  | obj (strForm : String)

mutual

/-- `json.loads(json.dumps(v, default=str))`: JSON-native values survive the
round trip unchanged; a non-JSON-native object is replaced by its `str(...)`
form (the deliberate lossy fallback in the bound callable). -/
def jsonDefaultStr : PyVal → PyVal
  | PyVal.str s => PyVal.str s
  | PyVal.int n => PyVal.int n
  | PyVal.bool b => PyVal.bool b
  | PyVal.pynone => PyVal.pynone
  | PyVal.list xs => PyVal.list (jsonDefaultStrList xs)
  | PyVal.dict es => PyVal.dict (jsonDefaultStrEntries es)
  | PyVal.obj r => PyVal.str r

/-- Elementwise `jsonDefaultStr` over a JSON array. -/
def jsonDefaultStrList : List PyVal → List PyVal
  | [] => []
  | x :: xs => jsonDefaultStr x :: jsonDefaultStrList xs

/-- Valuewise `jsonDefaultStr` over a JSON object's entries. -/
def jsonDefaultStrEntries : List (String × PyVal) → List (String × PyVal)
  | [] => []
  | (k, v) :: es => (k, jsonDefaultStr v) :: jsonDefaultStrEntries es

end

/-- The serialization applied to the whole `kwargs` dict in the bound
callable: `args_json = json.loads(json.dumps(kwargs, default=str))`. -/
def serializeKwargs (kwargs : List (String × PyVal)) : List (String × PyVal) :=
  jsonDefaultStrEntries kwargs

/-- One declared parameter of a catalog function (name, declared type text,
whether a default is declared). -/
structure ParamInfo where
  name : String
  type_text : String
  has_default : Bool
deriving DecidableEq

/-- The function descriptor returned by the catalog collaborator
(`FunctionInfo`): fully-qualified `catalog.schema.function` name, optional
free-text comment, optional ordered parameter list (`input_params`). -/
structure FunctionInfo where
  full_name : String
  comment : Option String
  input_params : Option (List ParamInfo)
deriving DecidableEq

/-- The remote execution result; `to_json` is its JSON-serialized string form
(`FunctionExecutionResult.to_json()`). -/
structure FunctionExecutionResult where
  to_json : String
deriving DecidableEq

/-- Modelled from the spec: the catalog client collaborator
(`BaseFunctionClient`) with `get_function`, `execute_function` and wildcard
expansion. Collaborator failures are opaque messages that this adapter must
propagate unchanged. -/
structure BaseFunctionClient where
  get_function : String → Except String FunctionInfo
  execute_function : String → List (String × PyVal) → Except String FunctionExecutionResult
  expand_pattern : String → List String

/-- The error taxonomy of the adapter: the two mutually-exclusive-argument
`ValueError`s raised by the converter, the missing-client failure of the
client resolver, the empty-`function_names` failure of toolkit construction,
and opaque passthrough of a collaborator failure. -/
inductive UCError where
  | invalidBoth
  | invalidNeither
  | missingClient
  | emptyFunctionList
  | upstream (msg : String)
deriving DecidableEq

/-- A pydantic model as the schema-building utility produces it: a model
name, its fields (name, type text, required flag), and whether it is a
proper subclass of the generic `BaseModel` base type. -/
structure PydanticModel where
  modelName : String
  fields : List (String × String × Bool)
  properSubclass : Bool
deriving DecidableEq

/-- The generic pydantic `BaseModel` base type itself (not a subclass). -/
def BaseModel : PydanticModel :=
  { modelName := "BaseModel", fields := [], properSubclass := false }

/-- Modelled from the spec: `generate_function_input_params_schema` from the
core function-processing utilities (not under the given sources). It builds a
pydantic model with one field per declared parameter (required iff the
parameter declares no default); when the descriptor's `input_params` is
absent it degenerates to the generic `BaseModel` itself. -/
def generate_function_input_params_schema (info : FunctionInfo) : PydanticModel :=
  match info.input_params with
  | Option.none => BaseModel
  | Option.some ps =>
    { modelName := info.full_name ++ "__params",
      fields := ps.map (fun p => (p.name, p.type_text, !p.has_default)),
      properSubclass := true }

/-- Modelled from the spec: `get_tool_name`, the deterministic name
sanitizer — replace the `.` separators of the fully-qualified name and keep
at most the trailing 64 characters. -/
def get_tool_name (full_function_name : String) : String :=
  let replaced := full_function_name.toList.flatMap (fun c => if c = '.' then ['_', '_'] else [c])
  String.mk (replaced.drop (replaced.length - 64))

/-- The OpenAI-compatible tool definition produced by `pydantic_function_tool`. -/
structure OpenAIToolDef where
  name : String
  description : String
  schema : PydanticModel
deriving DecidableEq

/-- Modelled from the spec: `openai.pydantic_function_tool`, the calling
convention's serializer. It requires a proper subclass of `BaseModel` and
rejects the generic base type itself. -/
def pydantic_function_tool (model : PydanticModel) (name description : String) :
    Except String OpenAIToolDef :=
  if model.properSubclass then
    Except.ok { name := name, description := description, schema := model }
  else
    Except.error "cannot build a tool definition from the generic BaseModel base type"

/-- The guard in `uc_function_to_litellm_tool`: when the generated model is
the generic `BaseModel` itself, wrap it in a distinctly-named proper subclass
(`type('BaseModelWrapper', (generated_model,), ...)`). -/
def wrapBaseModel (m : PydanticModel) : PydanticModel :=
  if m = BaseModel then
    { modelName := "BaseModelWrapper", fields := m.fields, properSubclass := true }
  else m

/-- Python truthiness of an optional string: `None` and the empty string are
falsy; a non-empty string is truthy (and carried along). -/
def truthyStr : Option String → Option String
  | Option.some s => if s = "" then Option.none else Option.some s
  | Option.none => Option.none

/-- Python `s or d` for an optional string `s`: falsy values (`None`, `""`)
yield `d`. -/
def pyStrOr : Option String → String → String
  | Option.some s, d => if s = "" then d else s
  | Option.none, d => d

/-- Modelled from the spec: `validate_or_set_default_client` — return the
supplied client, else the process-wide default (threaded explicitly here as
`defaultClient`), else fail with the missing-client error. -/
def validate_or_set_default_client (client defaultClient : Option BaseFunctionClient) :
    Except UCError BaseFunctionClient :=
  match client with
  | Option.some c => Except.ok c
  | Option.none =>
    match defaultClient with
    | Option.some c => Except.ok c
    | Option.none => Except.error UCError.missingClient

/-- The produced tool record (`LiteLLMTool`): the bound invocation callable
`fn`, the sanitized `name`, the `description`, and the OpenAI-compatible
tool definition. -/
structure LiteLLMTool where
  fn : List (String × PyVal) → Except UCError String
  name : String
  description : String
  tool : OpenAIToolDef

/-- The name/descriptor resolution step of `uc_function_to_litellm_tool`
after the both-provided check: a truthy `function_name` triggers a catalog
fetch (collaborator failures propagate), otherwise a present `function_info`
supplies the name via its `full_name`, otherwise the neither-provided
`ValueError` is raised. -/
def resolveFunction (c : BaseFunctionClient) (function_name : Option String)
    (function_info : Option FunctionInfo) : Except UCError (String × FunctionInfo) :=
  match truthyStr function_name with
  | Option.some n =>
    match c.get_function n with
    | Except.error e => Except.error (UCError.upstream e)
    | Except.ok info => Except.ok (n, info)
  | Option.none =>
    match function_info with
    | Option.some info => Except.ok (info.full_name, info)
    | Option.none => Except.error UCError.invalidNeither

/-- The tool-building tail of `uc_function_to_litellm_tool`: generate the
input-parameter schema, wrap the degenerate `BaseModel` case, build the
OpenAI tool definition, and close the bound callable over the client and the
resolved function name. -/
def buildTool (c : BaseFunctionClient) (fname : String) (finfo : FunctionInfo) :
    Except UCError LiteLLMTool :=
  let generated_model := wrapBaseModel (generate_function_input_params_schema finfo)
  match pydantic_function_tool generated_model (get_tool_name fname) (pyStrOr finfo.comment "") with
  | Except.error e => Except.error (UCError.upstream e)
  | Except.ok tool =>
    Except.ok
      { fn := fun kwargs =>
          match c.execute_function fname (serializeKwargs kwargs) with
          | Except.error e => Except.error (UCError.upstream e)
          | Except.ok result => Except.ok result.to_json,
        name := get_tool_name fname,
        description := pyStrOr finfo.comment "",
        tool := tool }

/-- `UCFunctionToolkit.uc_function_to_litellm_tool`, with the process-wide
default client threaded explicitly: the both-provided truthiness check, then
client resolution, then name/descriptor resolution, then tool construction. -/
def uc_function_to_litellm_tool (defaultClient client : Option BaseFunctionClient)
    (function_name : Option String) (function_info : Option FunctionInfo) :
    Except UCError LiteLLMTool :=
  if (truthyStr function_name).isSome && function_info.isSome then
    Except.error UCError.invalidBoth
  else
    match validate_or_set_default_client client defaultClient with
    | Except.error e => Except.error e
    | Except.ok c =>
      match resolveFunction c function_name function_info with
      | Except.error e => Except.error e
      | Except.ok (fname, finfo) => buildTool c fname finfo

/-- Whether an entry of `function_names` is a wildcard pattern
(`catalog.schema.*`), i.e. ends in `.*`. -/
def isWildcard (entry : String) : Bool :=
  match entry.toList.reverse with
  | '*' :: '.' :: _ => true
  | _ => false

/-- Modelled from the spec: pattern expansion — a wildcard entry is expanded
by the client collaborator into zero-or-more concrete names; a concrete name
maps to itself. -/
def expandEntry (c : BaseFunctionClient) (entry : String) : List String :=
  if isWildcard entry then c.expand_pattern entry else [entry]

/-- Deduplication by name keeping the first occurrence (Python dict
insertion-order semantics). -/
def dedupKeepFirst (xs : List String) : List String :=
  xs.foldl (fun acc x => if x ∈ acc then acc else acc ++ [x]) []

/-- The resolved, deduplicated concrete names of a `function_names` list, in
resolution order. -/
def resolvedNames (c : BaseFunctionClient) (function_names : List String) : List String :=
  dedupKeepFirst ((function_names.map (expandEntry c)).flatten)

/-- Convert each resolved name in resolution order, accumulating the
name-to-tool association; any single failure aborts the whole list. -/
def convertAll (defaultClient : Option BaseFunctionClient) (c : BaseFunctionClient) :
    List String → Except UCError (List (String × LiteLLMTool))
  | [] => Except.ok []
  | n :: rest =>
    match uc_function_to_litellm_tool defaultClient (Option.some c) (Option.some n) Option.none with
    | Except.error e => Except.error e
    | Except.ok t =>
      match convertAll defaultClient c rest with
      | Except.error e => Except.error e
      | Except.ok ts => Except.ok ((n, t) :: ts)

/-- Modelled from the spec: `process_function_names` from the core
function-processing utilities — expand patterns, deduplicate by name, and
convert every resolved name via the converter bound to the same client,
building the mapping in resolution order. -/
def process_function_names (defaultClient : Option BaseFunctionClient)
    (c : BaseFunctionClient) (function_names : List String) :
    Except UCError (List (String × LiteLLMTool)) :=
  convertAll defaultClient c (resolvedNames c function_names)

/-- The toolkit after successful validation: requested names, the
name-to-tool mapping (association list in insertion order), the resolved
client. -/
structure UCFunctionToolkit where
  function_names : List String
  tools_dict : List (String × LiteLLMTool)
  client : BaseFunctionClient

/-- `UCFunctionToolkit.validate_toolkit`, run at construction: resolve the
client (first), then the empty-`function_names` guard, then
`process_function_names`; any failure aborts construction. -/
def validate_toolkit (defaultClient : Option BaseFunctionClient)
    (function_names : List String) (client : Option BaseFunctionClient) :
    Except UCError UCFunctionToolkit :=
  match validate_or_set_default_client client defaultClient with
  | Except.error e => Except.error e
  | Except.ok c =>
    if function_names.isEmpty then Except.error UCError.emptyFunctionList
    else
      match process_function_names defaultClient c function_names with
      | Except.error e => Except.error e
      | Except.ok td =>
        Except.ok { function_names := function_names, tools_dict := td, client := c }

/-- The `tools` property: the mapping's values in insertion order. -/
def UCFunctionToolkit.tools (tk : UCFunctionToolkit) : List LiteLLMTool :=
  tk.tools_dict.map Prod.snd

/-- Whether an `Except` result is a success. -/
def isOkE {ε α : Type} : Except ε α → Bool
  | Except.ok _ => true
  | Except.error _ => false

/-! Concrete fixtures used by witnesses: a small catalog with one function
`cat.sch.fn` (one string parameter `x`, a comment) and one function
`cat.sch.np` (no input parameters, no comment). -/

/-- Descriptor of `cat.sch.fn`: one string parameter `x` without default. -/
def demoInfo : FunctionInfo :=
  { full_name := "cat.sch.fn",
    comment := Option.some "adds two numbers",
    input_params := Option.some [{ name := "x", type_text := "string", has_default := false }] }

/-- Descriptor of `cat.sch.np`: no declared input parameters, no comment. -/
def demoInfoNoParams : FunctionInfo :=
  { full_name := "cat.sch.np", comment := Option.none, input_params := Option.none }

/-- A concrete catalog client: resolves the two demo functions, executes
`cat.sch.fn` by echoing its string argument `x`, and expands the wildcard
`cat.sch.*` to `cat.sch.fn`. -/
def demoClient : BaseFunctionClient :=
  { get_function := fun n =>
      if n = "cat.sch.fn" then Except.ok demoInfo
      else if n = "cat.sch.np" then Except.ok demoInfoNoParams
      else Except.error ("NOT_FOUND: " ++ n),
    execute_function := fun n ps =>
      if n = "cat.sch.fn" then
        match ps with
        | [("x", PyVal.str s)] => Except.ok { to_json := "echo:" ++ s }
        | _ => Except.error "unexpected parameters"
      else Except.error "unknown function",
    expand_pattern := fun p => if p = "cat.sch.*" then ["cat.sch.fn"] else [] }

/-- Inert fallback tool used only to totalize the witness extractions. -/
def fallbackTool : LiteLLMTool :=
  { fn := fun _ => Except.error (UCError.upstream "fallback"),
    name := "", description := "",
    tool := { name := "", description := "", schema := BaseModel } }

/-- The tool the converter produces for the demo descriptor `demoInfo`. -/
def demoTool : LiteLLMTool :=
  match uc_function_to_litellm_tool Option.none (Option.some demoClient)
      Option.none (Option.some demoInfo) with
  | Except.ok t => t
  | Except.error _ => fallbackTool

/-- The tool the converter produces for the no-parameter descriptor. -/
def demoToolNoParams : LiteLLMTool :=
  match uc_function_to_litellm_tool Option.none (Option.some demoClient)
      Option.none (Option.some demoInfoNoParams) with
  | Except.ok t => t
  | Except.error _ => fallbackTool

/-- Inert fallback toolkit used only to totalize the witness extractions. -/
def fallbackToolkit : UCFunctionToolkit :=
  { function_names := [], tools_dict := [], client := demoClient }

/-- Toolkit built from the concrete name `cat.sch.fn`. -/
def demoToolkitA : UCFunctionToolkit :=
  match validate_toolkit Option.none ["cat.sch.fn"] (Option.some demoClient) with
  | Except.ok tk => tk
  | Except.error _ => fallbackToolkit

/-- Toolkit built from the overlapping wildcard pattern `cat.sch.*`. -/
def demoToolkitB : UCFunctionToolkit :=
  match validate_toolkit Option.none ["cat.sch.*"] (Option.some demoClient) with
  | Except.ok tk => tk
  | Except.error _ => fallbackToolkit

/-- First tool held by `demoToolkitA`. -/
def demoToolA : LiteLLMTool :=
  match demoToolkitA.tools_dict with
  | p :: _ => p.2
  | [] => fallbackTool

/-- First tool held by `demoToolkitB`. -/
def demoToolB : LiteLLMTool :=
  match demoToolkitB.tools_dict with
  | p :: _ => p.2
  | [] => fallbackTool

/-! Helper lemmas shared by the claim theorems. -/

/-- The model handed to the tool builder is always a proper subclass: either
the generated model already is one, or the degenerate `BaseModel` case was
wrapped. -/
theorem wrapBaseModel_properSubclass (info : FunctionInfo) :
    (wrapBaseModel (generate_function_input_params_schema info)).properSubclass = true := by
  by_cases h : generate_function_input_params_schema info = BaseModel
  · simp [wrapBaseModel, h]
  · rw [wrapBaseModel, if_neg h]
    cases hp : info.input_params with
    | none => exact absurd (by simp [generate_function_input_params_schema, hp]) h
    | some ps => simp [generate_function_input_params_schema, hp]

/-- Closed form of `buildTool`: it always succeeds, the callable closes over
the client and the resolved name, and name/description come from the
sanitizer and the comment. -/
theorem buildTool_eq (c : BaseFunctionClient) (fname : String) (finfo : FunctionInfo) :
    buildTool c fname finfo =
      Except.ok
        { fn := fun kwargs =>
            match c.execute_function fname (serializeKwargs kwargs) with
            | Except.error e => Except.error (UCError.upstream e)
            | Except.ok result => Except.ok result.to_json,
          name := get_tool_name fname,
          description := pyStrOr finfo.comment "",
          tool := { name := get_tool_name fname, description := pyStrOr finfo.comment "",
                    schema := wrapBaseModel (generate_function_input_params_schema finfo) } } := by
  simp only [buildTool, pydantic_function_tool, wrapBaseModel_properSubclass, if_true]

/-- The converter on the descriptor-given path reduces to `buildTool` at the
descriptor's fully-qualified name. -/
theorem convert_info_eq (df : Option BaseFunctionClient) (c : BaseFunctionClient)
    (info : FunctionInfo) :
    uc_function_to_litellm_tool df (Option.some c) Option.none (Option.some info) =
      buildTool c info.full_name info := rfl

/-- The converter on the (non-empty) name-given path fetches the descriptor
and either propagates the collaborator failure or builds the tool. -/
theorem convert_name_eq (df : Option BaseFunctionClient) (c : BaseFunctionClient)
    (n : String) (hn : n ≠ "") :
    uc_function_to_litellm_tool df (Option.some c) (Option.some n) Option.none =
      match c.get_function n with
      | Except.error e => Except.error (UCError.upstream e)
      | Except.ok info => buildTool c n info := by
  have ht : truthyStr (Option.some n) = Option.some n := by simp [truthyStr, hn]
  cases hg : c.get_function n with
  | error e =>
    simp [uc_function_to_litellm_tool, resolveFunction, validate_or_set_default_client, ht, hg]
  | ok info =>
    simp [uc_function_to_litellm_tool, resolveFunction, validate_or_set_default_client, ht, hg]

/-- A successful `convertAll` run covers exactly the given names, in order,
and every accumulated entry is a successful conversion of its key. -/
theorem convertAll_ok_spec (df : Option BaseFunctionClient) (c : BaseFunctionClient)
    (ns : List String) :
    ∀ ts : List (String × LiteLLMTool), convertAll df c ns = Except.ok ts →
      ts.map Prod.fst = ns ∧
        ∀ p ∈ ts,
          uc_function_to_litellm_tool df (Option.some c) (Option.some p.1) Option.none
            = Except.ok p.2 := by
  induction ns with
  | nil =>
    intro ts h
    simp only [convertAll, Except.ok.injEq] at h
    subst h
    simp
  | cons n rest ih =>
    intro ts h
    cases hc : uc_function_to_litellm_tool df (Option.some c) (Option.some n) Option.none with
    | error e => simp [convertAll, hc] at h
    | ok t =>
      cases hr : convertAll df c rest with
      | error e => simp [convertAll, hc, hr] at h
      | ok ts' =>
        simp only [convertAll, hc, hr, Except.ok.injEq] at h
        subst h
        obtain ⟨h1, h2⟩ := ih ts' hr
        refine ⟨by simp [h1], ?_⟩
        intro p hp
        rcases List.mem_cons.mp hp with hp0 | hp1
        · subst hp0; exact hc
        · exact h2 p hp1

/-- Membership in the deduplicating fold is membership in the accumulator or
in the traversed list. -/
theorem foldl_dedup_mem (xs : List String) :
    ∀ (acc : List String) (y : String),
      y ∈ xs.foldl (fun acc x => if x ∈ acc then acc else acc ++ [x]) acc →
      y ∈ acc ∨ y ∈ xs := by
  induction xs with
  | nil => intro acc y h; exact Or.inl h
  | cons x xs ih =>
    intro acc y h
    rw [List.foldl_cons] at h
    rcases ih _ y h with h1 | h2
    · by_cases hx : x ∈ acc
      · rw [if_pos hx] at h1; exact Or.inl h1
      · rw [if_neg hx] at h1
        rcases List.mem_append.mp h1 with ha | hb
        · exact Or.inl ha
        · rw [List.mem_singleton] at hb
          rw [hb]
          exact Or.inr (List.mem_cons_self x xs)
    · exact Or.inr (List.mem_cons_of_mem x h2)

/-- Deduplication only keeps names that were in the input. -/
theorem dedupKeepFirst_subset (xs : List String) (y : String) (h : y ∈ dedupKeepFirst xs) :
    y ∈ xs := by
  rcases foldl_dedup_mem xs [] y h with h0 | h1
  · cases h0
  · exact h1

/-- The deduplicating fold preserves distinctness of the accumulator. -/
theorem foldl_dedup_nodup (xs : List String) :
    ∀ acc : List String, acc.Nodup →
      (xs.foldl (fun acc x => if x ∈ acc then acc else acc ++ [x]) acc).Nodup := by
  induction xs with
  | nil => intro acc h; exact h
  | cons x xs ih =>
    intro acc h
    rw [List.foldl_cons]
    apply ih
    by_cases hx : x ∈ acc
    · rw [if_pos hx]; exact h
    · rw [if_neg hx]
      refine List.Nodup.append h (List.nodup_singleton x) ?_
      intro a ha hax
      rw [List.mem_singleton] at hax
      subst hax
      exact hx ha

/-- The resolved names are pairwise distinct. -/
theorem dedupKeepFirst_nodup (xs : List String) : (dedupKeepFirst xs).Nodup :=
  foldl_dedup_nodup xs [] List.nodup_nil

/-- Destructuring a successful toolkit construction: the client was resolved
from the supplied/default pair, the name list was non-empty, the mapping's
keys are exactly the resolved names in resolution order, and every entry is a
successful conversion of its key by the shared client. -/
theorem validate_toolkit_ok_spec (df cl : Option BaseFunctionClient)
    (names : List String) (tk : UCFunctionToolkit)
    (h : validate_toolkit df names cl = Except.ok tk) :
    validate_or_set_default_client cl df = Except.ok tk.client ∧
      tk.function_names = names ∧ names ≠ [] ∧
      tk.tools_dict.map Prod.fst = resolvedNames tk.client names ∧
      ∀ p ∈ tk.tools_dict,
        uc_function_to_litellm_tool df (Option.some tk.client) (Option.some p.1) Option.none
          = Except.ok p.2 := by
  cases hv : validate_or_set_default_client cl df with
  | error e => simp [validate_toolkit, hv] at h
  | ok c =>
    by_cases he : names.isEmpty
    · simp [validate_toolkit, hv, he] at h
    · cases hp : process_function_names df c names with
      | error e => simp [validate_toolkit, hv, he, hp] at h
      | ok td =>
        simp [validate_toolkit, hv, he, hp] at h
        subst h
        obtain ⟨h1, h2⟩ := convertAll_ok_spec df c (resolvedNames c names) td hp
        refine ⟨rfl, rfl, ?_, h1, h2⟩
        intro hnil
        subst hnil
        simp at he

/-! Claim theorems. -/

/-- C10: the converter's mutual-exclusivity check tests Python truthiness,
not presence: with `function_name` equal to the empty string together with a
descriptor, no both-provided error is raised and the call behaves exactly as
if only the descriptor had been supplied; with `function_name` equal to the
empty string and no descriptor, the neither-provided error is raised even
though `function_name` was explicitly supplied. -/
theorem truthiness_not_presence (df : Option BaseFunctionClient) (c : BaseFunctionClient)
    (info : FunctionInfo) :
    uc_function_to_litellm_tool df (Option.some c) (Option.some "") (Option.some info) =
      uc_function_to_litellm_tool df (Option.some c) Option.none (Option.some info) ∧
    uc_function_to_litellm_tool df (Option.some c) (Option.some "") Option.none =
      Except.error UCError.invalidNeither :=
  ⟨rfl, rfl⟩

/-- C1 counterexample: supplying both arguments — `function_name = ""` (an
explicitly supplied value) together with a descriptor — does not fail with
the `InvalidArgument` error; the conversion succeeds. -/
theorem both_supplied_no_error_counterexample :
    isOkE (uc_function_to_litellm_tool Option.none (Option.some demoClient)
      (Option.some "") (Option.some demoInfo)) = true := rfl

/-- C1 (amended): with "supplied" read as Python-truthy (a non-empty
`function_name`, a present `function_info`), and a client supplied: both
truthy fails with the both-provided `InvalidArgument` error (for any client
behaviour, i.e. before any catalog access), neither truthy fails with the
neither-provided `InvalidArgument` error, and exactly one truthy never
produces either of the two `InvalidArgument` errors. -/
theorem mutual_exclusivity_amended (df : Option BaseFunctionClient) (c : BaseFunctionClient)
    (function_name : Option String) (function_info : Option FunctionInfo) :
    ((truthyStr function_name).isSome = true → function_info.isSome = true →
      uc_function_to_litellm_tool df (Option.some c) function_name function_info =
        Except.error UCError.invalidBoth) ∧
    ((truthyStr function_name).isSome = false → function_info.isSome = false →
      uc_function_to_litellm_tool df (Option.some c) function_name function_info =
        Except.error UCError.invalidNeither) ∧
    ((truthyStr function_name).isSome ≠ function_info.isSome →
      uc_function_to_litellm_tool df (Option.some c) function_name function_info ≠
        Except.error UCError.invalidBoth ∧
      uc_function_to_litellm_tool df (Option.some c) function_name function_info ≠
        Except.error UCError.invalidNeither) := by
  refine ⟨?_, ?_, ?_⟩
  · intro h1 h2
    simp [uc_function_to_litellm_tool, h1, h2]
  · intro h1 h2
    cases hfn : truthyStr function_name with
    | some n => rw [hfn] at h1; simp at h1
    | none =>
      cases hfo : function_info with
      | some i => rw [hfo] at h2; simp at h2
      | none =>
        simp [uc_function_to_litellm_tool, resolveFunction,
          validate_or_set_default_client, hfn, hfo]
  · intro hne
    cases hfn : truthyStr function_name with
    | some n =>
      cases hfo : function_info with
      | some i => rw [hfn, hfo] at hne; simp at hne
      | none =>
        cases hg : c.get_function n with
        | error e =>
          constructor <;>
            simp [uc_function_to_litellm_tool, resolveFunction,
              validate_or_set_default_client, hfn, hfo, hg]
        | ok i =>
          constructor <;>
            simp [uc_function_to_litellm_tool, resolveFunction,
              validate_or_set_default_client, hfn, hfo, hg, buildTool_eq]
    | none =>
      cases hfo : function_info with
      | none => rw [hfn, hfo] at hne; simp at hne
      | some i =>
        constructor <;>
          simp [uc_function_to_litellm_tool, resolveFunction,
            validate_or_set_default_client, hfn, hfo, buildTool_eq]

/-- C1 witness: at concrete inputs, both truthy arguments yield the
both-provided error, neither yields the neither-provided error, and a single
truthy name does not yield the both-provided error. -/
theorem mutual_exclusivity_amended_witness :
    uc_function_to_litellm_tool Option.none (Option.some demoClient)
        (Option.some "cat.sch.fn") (Option.some demoInfo) =
      Except.error UCError.invalidBoth ∧
    uc_function_to_litellm_tool Option.none (Option.some demoClient)
        Option.none Option.none =
      Except.error UCError.invalidNeither ∧
    uc_function_to_litellm_tool Option.none (Option.some demoClient)
        (Option.some "cat.sch.fn") Option.none ≠
      Except.error UCError.invalidBoth :=
  ⟨(mutual_exclusivity_amended Option.none demoClient (Option.some "cat.sch.fn")
      (Option.some demoInfo)).1 rfl rfl,
   (mutual_exclusivity_amended Option.none demoClient Option.none Option.none).2.1 rfl rfl,
   ((mutual_exclusivity_amended Option.none demoClient (Option.some "cat.sch.fn")
      Option.none).2.2 (by decide)).1⟩

/-- C2 counterexample: constructing a toolkit with the empty function list,
no client and no default client fails with the missing-client error, not the
empty-function-list error. -/
theorem empty_list_missing_client_counterexample :
    validate_toolkit Option.none [] Option.none = Except.error UCError.missingClient ∧
    UCError.missingClient ≠ UCError.emptyFunctionList :=
  ⟨rfl, by decide⟩

/-- C2 (amended): construction with an empty `function_names` list always
fails; when a client is resolvable (supplied or default) it fails with the
empty-function-list error, but when no client is resolvable the
missing-client error is raised first, because client resolution precedes the
empty-list guard. -/
theorem empty_list_guard_amended (df cl : Option BaseFunctionClient) :
    (∀ c : BaseFunctionClient, validate_or_set_default_client cl df = Except.ok c →
      validate_toolkit df [] cl = Except.error UCError.emptyFunctionList) ∧
    (validate_or_set_default_client cl df = Except.error UCError.missingClient →
      validate_toolkit df [] cl = Except.error UCError.missingClient) := by
  constructor
  · intro c hc
    simp [validate_toolkit, hc]
  · intro hc
    simp [validate_toolkit, hc]

/-- C2 witness: with a supplied client the empty list fails with the
empty-function-list error; with no client at all it fails with the
missing-client error. -/
theorem empty_list_guard_amended_witness :
    validate_toolkit Option.none [] (Option.some demoClient) =
      Except.error UCError.emptyFunctionList ∧
    validate_toolkit Option.none [] Option.none = Except.error UCError.missingClient :=
  ⟨(empty_list_guard_amended Option.none (Option.some demoClient)).1 demoClient rfl,
   (empty_list_guard_amended Option.none Option.none).2 rfl⟩

/-- C3: the bound callable of a produced tool serializes its keyword
arguments with the lossy string fallback, submits exactly them to the
client's execute operation for the bound function name, and returns the
execution result's JSON string form unchanged — a single call, no retries,
no caching. -/
theorem tool_fn_serializes_executes_returns (df : Option BaseFunctionClient)
    (c : BaseFunctionClient) (info : FunctionInfo) (t : LiteLLMTool)
    (h : uc_function_to_litellm_tool df (Option.some c) Option.none (Option.some info)
      = Except.ok t) (kwargs : List (String × PyVal)) :
    t.fn kwargs =
      match c.execute_function info.full_name (serializeKwargs kwargs) with
      | Except.error e => Except.error (UCError.upstream e)
      | Except.ok result => Except.ok result.to_json := by
  rw [convert_info_eq, buildTool_eq] at h
  have ht := Except.ok.inj h
  subst ht
  rfl

/-- C3 witness: invoking the demo tool with a non-JSON-native argument
coerces it via its string form and returns the execution result's JSON
string unchanged. -/
theorem tool_fn_witness :
    demoTool.fn [("x", PyVal.obj "hello")] = Except.ok "echo:hello" :=
  (tool_fn_serializes_executes_returns Option.none demoClient demoInfo demoTool rfl
      [("x", PyVal.obj "hello")]).trans rfl

/-- C4: a descriptor declaring zero parameters converts successfully and the
produced tool definition carries a valid, distinctly-typed empty-object
schema — a proper subclass with no fields — not the generic `BaseModel`
base type that the serializer would reject. -/
theorem empty_schema_distinct (df : Option BaseFunctionClient) (c : BaseFunctionClient)
    (info : FunctionInfo)
    (hz : info.input_params = Option.none ∨ info.input_params = Option.some []) :
    ∃ t, uc_function_to_litellm_tool df (Option.some c) Option.none (Option.some info)
        = Except.ok t ∧
      t.tool.schema ≠ BaseModel ∧
      t.tool.schema.fields = [] ∧
      t.tool.schema.properSubclass = true := by
  rw [convert_info_eq, buildTool_eq]
  refine ⟨_, rfl, ?_, ?_, wrapBaseModel_properSubclass info⟩
  · intro hEq
    have hEq2 : wrapBaseModel (generate_function_input_params_schema info) = BaseModel := hEq
    have hps := wrapBaseModel_properSubclass info
    rw [hEq2] at hps
    simp [BaseModel] at hps
  · rcases hz with hz | hz
    · simp [wrapBaseModel, generate_function_input_params_schema, hz, BaseModel]
    · simp [wrapBaseModel, generate_function_input_params_schema, hz, BaseModel]

/-- C4 witness: the demo descriptor without input parameters produces a
distinct empty-object schema. -/
theorem empty_schema_witness :
    ∃ t, uc_function_to_litellm_tool Option.none (Option.some demoClient) Option.none
        (Option.some demoInfoNoParams) = Except.ok t ∧
      t.tool.schema ≠ BaseModel ∧
      t.tool.schema.fields = [] ∧
      t.tool.schema.properSubclass = true :=
  empty_schema_distinct Option.none demoClient demoInfoNoParams (Or.inl rfl)

/-- C5: for a successfully constructed toolkit, `tools` is the mapping's
values in insertion order, the mapping's keys are exactly the distinct
resolved names in resolution order, and the number of tools equals the
number of distinct resolved names. -/
theorem tools_length_order (df cl : Option BaseFunctionClient) (names : List String)
    (tk : UCFunctionToolkit) (h : validate_toolkit df names cl = Except.ok tk) :
    tk.tools = tk.tools_dict.map Prod.snd ∧
      tk.tools_dict.map Prod.fst = resolvedNames tk.client names ∧
      tk.tools.length = (resolvedNames tk.client names).length ∧
      (resolvedNames tk.client names).Nodup := by
  obtain ⟨-, -, -, h4, -⟩ := validate_toolkit_ok_spec df cl names tk h
  refine ⟨rfl, h4, ?_, dedupKeepFirst_nodup _⟩
  calc tk.tools.length = tk.tools_dict.length := by simp [UCFunctionToolkit.tools]
    _ = (tk.tools_dict.map Prod.fst).length := by simp
    _ = (resolvedNames tk.client names).length := by rw [h4]

/-- C5 witness: the demo toolkit over one concrete resolvable name. -/
theorem tools_length_order_witness :
    demoToolkitA.tools = demoToolkitA.tools_dict.map Prod.snd ∧
      demoToolkitA.tools_dict.map Prod.fst =
        resolvedNames demoToolkitA.client ["cat.sch.fn"] ∧
      demoToolkitA.tools.length =
        (resolvedNames demoToolkitA.client ["cat.sch.fn"]).length ∧
      (resolvedNames demoToolkitA.client ["cat.sch.fn"]).Nodup :=
  tools_length_order Option.none (Option.some demoClient) ["cat.sch.fn"] demoToolkitA rfl

/-- C6: toolkit construction is all-or-nothing — it returns either an error
or a fully-built toolkit (no partial state is representable), and on success
every key of the tool mapping is a name actually produced by collaborator
expansion of the requested patterns, each carrying the successful conversion
of that key. -/
theorem construction_all_or_nothing (df cl : Option BaseFunctionClient)
    (names : List String) (tk : UCFunctionToolkit)
    (h : validate_toolkit df names cl = Except.ok tk) :
    (∀ k ∈ tk.tools_dict.map Prod.fst,
        k ∈ (names.map (expandEntry tk.client)).flatten) ∧
      ∀ p ∈ tk.tools_dict,
        uc_function_to_litellm_tool df (Option.some tk.client) (Option.some p.1) Option.none
          = Except.ok p.2 := by
  obtain ⟨-, -, -, h4, h5⟩ := validate_toolkit_ok_spec df cl names tk h
  refine ⟨?_, h5⟩
  intro k hk
  rw [h4] at hk
  exact dedupKeepFirst_subset _ k hk

/-- C6 witness: the demo toolkit's keys all come from expansion of its
requested names, and each entry is a successful conversion. -/
theorem construction_all_or_nothing_witness :
    (∀ k ∈ demoToolkitA.tools_dict.map Prod.fst,
        k ∈ (["cat.sch.fn"].map (expandEntry demoToolkitA.client)).flatten) ∧
      ∀ p ∈ demoToolkitA.tools_dict,
        uc_function_to_litellm_tool Option.none (Option.some demoToolkitA.client)
          (Option.some p.1) Option.none = Except.ok p.2 :=
  construction_all_or_nothing Option.none (Option.some demoClient) ["cat.sch.fn"]
    demoToolkitA rfl

/-- C7: conversion is deterministic and idempotent — two toolkits built over
the same client (and default) whose mappings both contain the key `k`
hold tools with the same name and description whose callables yield
identical results for identical arguments. -/
theorem conversion_idempotent (df cl : Option BaseFunctionClient)
    (ns1 ns2 : List String) (tk1 tk2 : UCFunctionToolkit) (k : String)
    (t1 t2 : LiteLLMTool)
    (h1 : validate_toolkit df ns1 cl = Except.ok tk1)
    (h2 : validate_toolkit df ns2 cl = Except.ok tk2)
    (m1 : (k, t1) ∈ tk1.tools_dict) (m2 : (k, t2) ∈ tk2.tools_dict) :
    t1.name = t2.name ∧ t1.description = t2.description ∧
      ∀ args, t1.fn args = t2.fn args := by
  obtain ⟨hc1, -, -, -, h5a⟩ := validate_toolkit_ok_spec df cl ns1 tk1 h1
  obtain ⟨hc2, -, -, -, h5b⟩ := validate_toolkit_ok_spec df cl ns2 tk2 h2
  rw [hc1] at hc2
  have hcc : tk1.client = tk2.client := Except.ok.inj hc2
  have e1 := h5a (k, t1) m1
  have e2 := h5b (k, t2) m2
  rw [← hcc] at e2
  rw [e1] at e2
  have ht : t1 = t2 := Except.ok.inj e2
  subst ht
  exact ⟨rfl, rfl, fun args => rfl⟩

/-- C7 witness: the toolkit over the concrete name `cat.sch.fn` and the
toolkit over the overlapping wildcard `cat.sch.*` hold identical tools for
that function. -/
theorem conversion_idempotent_witness :
    demoToolA.name = demoToolB.name ∧ demoToolA.description = demoToolB.description ∧
      ∀ args, demoToolA.fn args = demoToolB.fn args :=
  conversion_idempotent Option.none (Option.some demoClient) ["cat.sch.fn"] ["cat.sch.*"]
    demoToolkitA demoToolkitB "cat.sch.fn" demoToolA demoToolB rfl rfl
    (by rw [show demoToolkitA.tools_dict = [("cat.sch.fn", demoToolA)] from rfl]
        exact List.mem_singleton.mpr rfl)
    (by rw [show demoToolkitB.tools_dict = [("cat.sch.fn", demoToolB)] from rfl]
        exact List.mem_singleton.mpr rfl)

/-- C8: a produced tool's description is the descriptor's comment verbatim
when present, and the empty string when the comment is absent (it is a total
`String`, never a null). -/
theorem tool_description_verbatim_or_empty (df : Option BaseFunctionClient)
    (c : BaseFunctionClient) (info : FunctionInfo) (t : LiteLLMTool)
    (h : uc_function_to_litellm_tool df (Option.some c) Option.none (Option.some info)
      = Except.ok t) :
    (∀ s, info.comment = Option.some s → t.description = s) ∧
      (info.comment = Option.none → t.description = "") := by
  rw [convert_info_eq, buildTool_eq] at h
  have ht := Except.ok.inj h
  subst ht
  constructor
  · intro s hs
    simp only [pyStrOr, hs]
    by_cases h0 : s = "" <;> simp [h0]
  · intro hs
    simp [pyStrOr, hs]

/-- C8 witness: the demo descriptor's comment appears verbatim; the
comment-free descriptor yields the empty string. -/
theorem tool_description_witness :
    demoTool.description = "adds two numbers" ∧ demoToolNoParams.description = "" :=
  ⟨(tool_description_verbatim_or_empty Option.none demoClient demoInfo demoTool rfl).1
      "adds two numbers" rfl,
   (tool_description_verbatim_or_empty Option.none demoClient demoInfoNoParams
      demoToolNoParams rfl).2 rfl⟩

/-- C9: when a (truthy) `function_name` is given, the descriptor is fetched
from the client — a retrieval failure propagates with the collaborator's
error unchanged, and a retrieval success feeds the fetched descriptor into
tool construction; when the descriptor is given instead, the function name
is derived from its fully-qualified `full_name`, as witnessed by the tool's
sanitized name and by the name its callable is bound to. -/
theorem fetch_or_derive (df : Option BaseFunctionClient) (c : BaseFunctionClient)
    (n : String) (e : String) (info : FunctionInfo) :
    (n ≠ "" → c.get_function n = Except.error e →
      uc_function_to_litellm_tool df (Option.some c) (Option.some n) Option.none =
        Except.error (UCError.upstream e)) ∧
    (n ≠ "" → c.get_function n = Except.ok info →
      uc_function_to_litellm_tool df (Option.some c) (Option.some n) Option.none =
        buildTool c n info) ∧
    (∀ t, uc_function_to_litellm_tool df (Option.some c) Option.none (Option.some info)
        = Except.ok t →
      t.name = get_tool_name info.full_name ∧
        ∀ kwargs, t.fn kwargs =
          match c.execute_function info.full_name (serializeKwargs kwargs) with
          | Except.error e2 => Except.error (UCError.upstream e2)
          | Except.ok result => Except.ok result.to_json) := by
  refine ⟨?_, ?_, ?_⟩
  · intro hn hg
    rw [convert_name_eq df c n hn, hg]
  · intro hn hg
    rw [convert_name_eq df c n hn, hg]
  · intro t h
    rw [convert_info_eq, buildTool_eq] at h
    have ht := Except.ok.inj h
    subst ht
    exact ⟨rfl, fun kwargs => rfl⟩

/-- C9 witness: fetching an unknown name propagates the collaborator's
not-found error unchanged; the descriptor-given path names the tool after
the descriptor's `full_name`. -/
theorem fetch_or_derive_witness :
    uc_function_to_litellm_tool Option.none (Option.some demoClient)
        (Option.some "cat.sch.missing") Option.none =
      Except.error (UCError.upstream "NOT_FOUND: cat.sch.missing") ∧
    demoTool.name = get_tool_name "cat.sch.fn" :=
  ⟨(fetch_or_derive Option.none demoClient "cat.sch.missing" "NOT_FOUND: cat.sch.missing"
      demoInfo).1 (by decide) rfl,
   ((fetch_or_derive Option.none demoClient "x" "e" demoInfo).2.2 demoTool rfl).1⟩

/-- C10 witness: the truthiness behaviour at concrete inputs. -/
theorem truthiness_not_presence_witness :
    uc_function_to_litellm_tool Option.none (Option.some demoClient)
        (Option.some "") (Option.some demoInfo) =
      uc_function_to_litellm_tool Option.none (Option.some demoClient)
        Option.none (Option.some demoInfo) ∧
    uc_function_to_litellm_tool Option.none (Option.some demoClient)
        (Option.some "") Option.none =
      Except.error UCError.invalidNeither :=
  truthiness_not_presence Option.none demoClient demoInfo

end UCLiteLLM
